import Mathlib

/-!
Shallow embedding of the double-buffered video-configuration store of the
Dolphin excerpt:
  Source/Core/VideoCommon/VideoConfig.h        (the VideoConfig struct, its
                                                derived boolean queries and the
                                                g_Config / g_ActiveConfig pair)
  Source/Core/VideoBackends/OGL/main.cpp       (GetShaders, InitBackendInfo,
                                                VideoBackend::Initialize,
                                                GetName, GetDisplayName)

Machine integers of the source (`int`, `u32`) are embedded as `Int` and `Nat`:
no arithmetic is ever performed on them in this slice, they are only stored
and copied.  `float` fields are likewise only stored and copied, never
computed with, so they are carried as their raw bit patterns (`Nat`).
`std::string` becomes `String`, `std::vector<std::string>` becomes
`List String`.
-/

/-- Float fields of VideoConfig are never used arithmetically in this slice
(they are only assigned, copied and compared), so they are embedded as raw
IEEE-754 bit patterns. -/
abbrev FloatBits := Nat

/-! ## Path splitting (model of Common/StringUtil SplitPath)

SplitPath itself lives in Common/StringUtil.cpp, which is not part of the
excerpt; the model follows the spec: "returning base filenames without
extension or directory components".  A path is split at its last directory
separator and its last dot. -/

/-- Characters of a path after its last directory separator; the whole path
when it has no separator. -/
def afterLastSlash (cs : List Char) : List Char :=
  ((cs.reverse.takeWhile (fun c => c != '/')).reverse)

/-- Characters of a filename before its last dot; the whole name when it has
no dot. -/
def beforeLastDot (cs : List Char) : List Char :=
  match cs.reverse.dropWhile (fun c => c != '.') with
  | [] => cs
  | _ :: t => t.reverse

/-- Base filename of a path: directory components and extension removed,
as SplitPath's second out-parameter produces it. -/
def baseName (s : String) : String :=
  String.mk (beforeLastDot (afterLastSlash s.data))

/-- Extension removal alone, for filenames that carry no directory part. -/
def stripExt (f : String) : String :=
  String.mk (beforeLastDot f.data)

/-- Does the filename carry the given extension (a suffix match, as the file
search filter applies it)? -/
def hasExtension (ext : String) (f : String) : Bool :=
  ext.data.isSuffixOf f.data

/-! ## Filesystem and file search (model of Common/FileSearch DoFileSearch)

DoFileSearch lives in Common/FileSearch.cpp, which is not part of the
excerpt. -/

/-- Modelled from the spec: the filesystem consumed by capability discovery
is a directory-listing interface; a directory path maps either to the list
of filenames it contains or to `none` when the directory is missing
("directory enumeration must tolerate a missing directory by treating it as
contributing zero entries rather than failing the whole capability
report"). -/
structure Filesystem where
  listing : String → Option (List String)

/-- Modelled from the spec: DoFileSearch performs a "directory listing
filtered by a fixed file extension" over the given search directories, in
order, returning the full path of every matching file; a missing directory
contributes zero entries. -/
def DoFileSearch (exts : List String) (dirs : List String) (fs : Filesystem) :
    List String :=
  dirs.flatMap (fun d =>
    match fs.listing d with
    | none => []
    | some files =>
        (files.filter (fun f => exts.any (fun e => hasExtension e f))).map
          (fun f => d ++ "/" ++ f))

/-- The two shader search roots handed to GetShaders:
`userPath` stands for File::GetUserPath(D_SHADERS_IDX) and `sysPath` for
File::GetSysDirectory() + SHADERS_DIR + DIR_SEP (both path-provider calls
live outside the excerpt), together with the filesystem they are listed
through. -/
structure ShaderEnv where
  userPath : String
  sysPath : String
  fs : Filesystem

/-- OGL/main.cpp GetShaders: search both shader roots (suffixed with
`sub_dir`) for ".glsl" files and collect the base name of every path
found.  The source pushes one name per path; it does not deduplicate. -/
def GetShaders (env : ShaderEnv) (sub_dir : String) : List String :=
  let paths := DoFileSearch [".glsl"]
    [env.userPath ++ sub_dir, env.sysPath ++ sub_dir] env.fs
  paths.map baseName

/-! ## The configuration struct (VideoCommon/VideoConfig.h) -/

/-- API_TYPE lives in VideoCommon/VideoCommon.h, outside the excerpt; only
API_OPENGL is used here. -/
inductive API_TYPE where
  | API_OPENGL
  | API_D3D
  | API_NONE
deriving DecidableEq, Inhabited

/-- The anonymous backend_info struct nested in VideoConfig.  The two source
files are from different revisions: main.cpp assigns the fields
bSupportsGeometryShaders, bSupports3DVision, bSupportsPostProcessing,
bSupportsSSAA, bSupportsPaletteConversion, bSupportsClipControl and
AnaglyphShaders, which this VideoConfig.h revision does not declare, and
assigns AAModes the integer list {1, 2, 4, 8} although the header declares
it as a vector of strings.  The embedding takes the union of the fields and
types AAModes by the values InitBackendInfo actually stores. -/
structure BackendInfo where
  APIType : API_TYPE
  Adapters : List String
  AAModes : List Nat
  PPShaders : List String
  AnaglyphShaders : List String
  bUseMinimalMipCount : Bool
  bSupportsExclusiveFullscreen : Bool
  bSupportsDualSourceBlend : Bool
  bSupportsPrimitiveRestart : Bool
  bSupportsOversizedViewports : Bool
  bSupportsEarlyZ : Bool
  bSupportsBindingLayout : Bool
  bSupportsBBox : Bool
  bSupportsGeometryShaders : Bool
  bSupports3DVision : Bool
  bSupportsPostProcessing : Bool
  bSupportsSSAA : Bool
  bSupportsPaletteConversion : Bool
  bSupportsClipControl : Bool
deriving DecidableEq, Inhabited

/-- VideoConfig, field for field as declared in VideoConfig.h.  The int[3]
and string[2] arrays become triples and pairs. -/
structure VideoConfig where
  -- General
  bVSync : Bool
  bFullscreen : Bool
  bRunning : Bool
  bWidescreenHack : Bool
  iAspectRatio : Int
  bCrop : Bool
  bUseXFB : Bool
  bUseRealXFB : Bool
  -- Enhancements
  iMultisampleMode : Int
  iEFBScale : Int
  bForceFiltering : Bool
  iMaxAnisotropy : Int
  sPostProcessingShader : String
  -- Information
  bShowFPS : Bool
  bOverlayStats : Bool
  bOverlayProjStats : Bool
  bTexFmtOverlayEnable : Bool
  bTexFmtOverlayCenter : Bool
  bShowEFBCopyRegions : Bool
  bLogRenderTimeToFile : Bool
  -- Render
  bWireFrame : Bool
  bDstAlphaPass : Bool
  bDisableFog : Bool
  -- Utility
  bDumpTextures : Bool
  bHiresTextures : Bool
  bDumpEFBTarget : Bool
  bUseFFV1 : Bool
  bFreeLook : Bool
  bAnaglyphStereo : Bool
  iAnaglyphStereoSeparation : Int
  iAnaglyphFocalAngle : Int
  bBorderlessFullscreen : Bool
  -- Hacks
  bEFBAccessEnable : Bool
  bPerfQueriesEnable : Bool
  bEFBCopyEnable : Bool
  bEFBCopyClearDisable : Bool
  bEFBCopyCacheEnable : Bool
  bEFBEmulateFormatChanges : Bool
  bCopyEFBToTexture : Bool
  bCopyEFBScaled : Bool
  iSafeTextureCache_ColorSamples : Int
  iPhackvalue : Int × Int × Int
  sPhackvalue : String × String
  fAspectRatioHackW : FloatBits
  fAspectRatioHackH : FloatBits
  bEnablePixelLighting : Bool
  bFastDepthCalc : Bool
  iLog : Int
  iSaveTargetId : Int
  -- VR global
  fScale : FloatBits
  fLeanBackAngle : FloatBits
  bAsynchronousTimewarp : Bool
  bEnableVR : Bool
  bLowPersistence : Bool
  bDynamicPrediction : Bool
  bOrientationTracking : Bool
  bMagYawCorrection : Bool
  bPositionTracking : Bool
  bChromatic : Bool
  bTimewarp : Bool
  bVignette : Bool
  bNoRestore : Bool
  bFlipVertical : Bool
  bSRGB : Bool
  bOverdrive : Bool
  bHqDistortion : Bool
  iVRPlayer : Int
  iMinExtraFrames : Nat
  iMaxExtraFrames : Nat
  -- VR
  fUnitsPerMetre : FloatBits
  fHudThickness : FloatBits
  fHudDistance : FloatBits
  fHud3DCloser : FloatBits
  fCameraForward : FloatBits
  fCameraPitch : FloatBits
  fAimDistance : FloatBits
  fScreenHeight : FloatBits
  fScreenThickness : FloatBits
  fScreenDistance : FloatBits
  fScreenRight : FloatBits
  fScreenUp : FloatBits
  fScreenPitch : FloatBits
  fTelescopeMaxFOV : FloatBits
  bDisable3D : Bool
  bHudFullscreen : Bool
  bHudOnTop : Bool
  iTelescopeEye : Int
  iMetroidPrime : Int
  -- VR layer debugging
  iSelectedLayer : Int
  iFlashState : Int
  -- D3D only config
  iAdapter : Int
  -- Debugging
  bEnableShaderDebugging : Bool
  -- Static config per API
  backend_info : BackendInfo
deriving Inhabited

/-! ### Derived boolean queries (VideoConfig.h lines 196-200) -/

def VideoConfig.RealXFBEnabled (c : VideoConfig) : Bool :=
  c.bUseXFB && c.bUseRealXFB

def VideoConfig.VirtualXFBEnabled (c : VideoConfig) : Bool :=
  c.bUseXFB && !c.bUseRealXFB

def VideoConfig.EFBCopiesToTextureEnabled (c : VideoConfig) : Bool :=
  c.bEFBCopyEnable && c.bCopyEFBToTexture

def VideoConfig.EFBCopiesToRamEnabled (c : VideoConfig) : Bool :=
  c.bEFBCopyEnable && !c.bCopyEFBToTexture

def VideoConfig.ExclusiveFullscreenEnabled (c : VideoConfig) : Bool :=
  c.backend_info.bSupportsExclusiveFullscreen && !c.bBorderlessFullscreen

/-! ## The two global instances and the snapshot operation -/

/-- The process-wide pair of VideoConfig globals: g_Config is the live store
mutated by the UI/host, g_ActiveConfig the per-frame snapshot read by the
rendering code. -/
structure ConfigState where
  g_Config : VideoConfig
  g_ActiveConfig : VideoConfig
deriving Inhabited

/-- Modelled from the spec: UpdateActiveConfig is declared in VideoConfig.h
(line 207) but defined in VideoCommon/VideoConfig.cpp, which is not part of
the excerpt.  The spec states: "snapshot(): copies every field from
LiveConfig into ActiveConfig ... ActiveConfig now reflects LiveConfig as of
the call", a full-structure copy of g_Config into g_ActiveConfig. -/
def UpdateActiveConfig (s : ConfigState) : ConfigState :=
  { s with g_ActiveConfig := s.g_Config }

/-- A mutation of the live store, as performed by UI/host collaborators:
an arbitrary transformation of g_Config (g_ActiveConfig is never written by
anyone but the snapshot). -/
def applyMutations (ms : List (VideoConfig → VideoConfig)) (s : ConfigState) :
    ConfigState :=
  ms.foldl (fun t m => { t with g_Config := m t.g_Config }) s

/-! ## OGL backend operations (VideoBackends/OGL/main.cpp) -/

/-- ANAGLYPH_DIR DIR_SEP from Common/CommonPaths.h (outside the excerpt):
the anaglyph-shader subdirectory suffix passed to GetShaders. -/
def anaglyphSubDir : String := "Anaglyph/"

/-- VideoBackend::InitBackendInfo (main.cpp lines 110-134): populates
g_Config.backend_info with fixed feature flags, an empty adapter list, the
fixed AA-mode list {1, 2, 4, 8} and the two shader lists discovered through
GetShaders.  Fields of backend_info it does not assign (such as
bSupportsEarlyZ or bUseMinimalMipCount in this header revision) keep their
previous values. -/
def InitBackendInfo (env : ShaderEnv) (s : ConfigState) : ConfigState :=
  let c := s.g_Config
  { s with g_Config :=
    { c with backend_info :=
      { c.backend_info with
        APIType := API_TYPE.API_OPENGL
        bSupportsExclusiveFullscreen := false
        bSupportsOversizedViewports := true
        bSupportsGeometryShaders := true
        bSupports3DVision := false
        bSupportsPostProcessing := true
        bSupportsSSAA := true
        bSupportsDualSourceBlend := true
        bSupportsPrimitiveRestart := true
        bSupportsPaletteConversion := true
        bSupportsClipControl := true
        Adapters := []
        AAModes := [1, 2, 4, 8]
        PPShaders := GetShaders env ""
        AnaglyphShaders := GetShaders env anaglyphSubDir } } }

/-- Outcome of the two GL-interface creation calls the driver can answer:
GLInterface->Create(window_handle) and GLInterface->CreateOffscreen().  The
driver is external, so the outcomes are parameters of the model. -/
structure GLCreateOutcome where
  createOk : Bool
  createOffscreenOk : Bool
deriving DecidableEq, Inhabited

/-- VideoBackend::Initialize (main.cpp lines 136-155): runs InitBackendInfo,
then InitializeShared, then creates the GL interface — windowed when a
window handle is present, offscreen otherwise — and returns false exactly
when that creation call fails.  InitializeShared is VideoCommon code outside
the excerpt and is passed in as an abstract transformation of the config
state; InitInterface and SetMode(MODE_DETECT) touch only the GL interface,
not the config state.  `window_handle` is `true` when the pointer is
non-null. -/
def Initialize (env : ShaderEnv) (initShared : ConfigState → ConfigState)
    (gl : GLCreateOutcome) (window_handle : Bool) (s : ConfigState) :
    Bool × ConfigState :=
  let s1 := InitBackendInfo env s
  let s2 := initShared s1
  if window_handle then
    if !gl.createOk then (false, s2) else (true, s2)
  else
    if !gl.createOffscreenOk then (false, s2) else (true, s2)

/-- GLInterfaceMode from Common/GL/GLInterfaceBase.h (outside the excerpt);
the excerpt uses MODE_DETECT and MODE_OPENGLES3. -/
inductive GLInterfaceMode where
  | MODE_DETECT
  | MODE_OPENGL
  | MODE_OPENGLES2
  | MODE_OPENGLES3
deriving DecidableEq, Inhabited

/-- VideoBackend::GetName (main.cpp lines 82-85). -/
def GetName : String := "OGL"

/-- VideoBackend::GetDisplayName (main.cpp lines 87-93): "OpenGLES" when the
global GLInterface pointer is non-null and reports MODE_OPENGLES3, otherwise
"OpenGL".  The pointer-and-mode pair is embedded as `Option GLInterfaceMode`
(`none` is the null pointer). -/
def GetDisplayName (gl : Option GLInterfaceMode) : String :=
  match gl with
  | some m =>
      if m = GLInterfaceMode.MODE_OPENGLES3 then "OpenGLES" else "OpenGL"
  | none => "OpenGL"

/-! ## Specification-side description of shader discovery

Used to compare GetShaders against the spec's characterization of the
per-directory result ("base filenames without extension or directory
components" of the files matching the fixed extension). -/

/-- Specification-side description: the base names of the ".glsl" files of
one directory listing, one entry per file, in listing order. -/
def matchingBaseNames (files : List String) : List String :=
  (files.filter (fun f => hasExtension ".glsl" f)).map stripExt

/-! ## Helper lemmas about path splitting and directory search -/

theorem takeWhile_append_all {α : Type} {p : α → Bool} {l₁ l₂ : List α}
    {b : α} (h : ∀ a ∈ l₁, p a = true) (hb : p b = false) :
    (l₁ ++ b :: l₂).takeWhile p = l₁ := by
  induction l₁ with
  | nil => simp [List.takeWhile_cons, hb]
  | cons a t ih =>
    rw [List.cons_append, List.takeWhile_cons, h a (by simp)]
    rw [ih (fun x hx => h x (by simp [hx]))]
    simp

theorem afterLastSlash_concat (x y : List Char) (hy : '/' ∉ y) :
    afterLastSlash (x ++ '/' :: y) = y := by
  unfold afterLastSlash
  rw [List.reverse_append, List.reverse_cons, List.append_assoc,
      List.singleton_append]
  rw [takeWhile_append_all (fun a ha => ?_) (by simp)]
  · exact List.reverse_reverse y
  · have : a ∈ y := List.mem_reverse.mp ha
    simp [bne_iff_ne]
    exact fun hEq => hy (hEq ▸ this)

theorem baseName_concat (d f : String) (hf : '/' ∉ f.data) :
    baseName (d ++ "/" ++ f) = stripExt f := by
  unfold baseName stripExt
  have hdata : (d ++ "/" ++ f).data = d.data ++ '/' :: f.data := by
    rw [String.data_append, String.data_append]
    rw [List.append_assoc]
    rfl
  rw [hdata, afterLastSlash_concat _ _ hf]

theorem searchDir_names (d : String) (files : List String)
    (hf : ∀ f ∈ files, '/' ∉ f.data) :
    ((files.filter (fun f => [".glsl"].any (fun e => hasExtension e f))).map
        (fun f => d ++ "/" ++ f)).map baseName = matchingBaseNames files := by
  unfold matchingBaseNames
  rw [List.map_map]
  rw [List.filter_congr (q := fun f => hasExtension ".glsl" f)
      (fun f _ => by simp [List.any])]
  apply List.map_congr_left
  intro f hmem
  exact baseName_concat d f (hf f (List.mem_of_mem_filter hmem))

/-! ## Claim theorems -/

/-- C1: after a call to UpdateActiveConfig, for every sequence of prior
mutations to the live store g_Config, the whole g_ActiveConfig structure —
hence every one of its fields — equals g_Config as of the call: a
full-structure copy with no field left stale. -/
theorem updateActiveConfig_full_copy (ms : List (VideoConfig → VideoConfig))
    (s : ConfigState) :
    (UpdateActiveConfig (applyMutations ms s)).g_ActiveConfig
      = (applyMutations ms s).g_Config := rfl

/-- C4: calling UpdateActiveConfig twice in a row with no intervening
mutation of g_Config leaves g_ActiveConfig in the same state after the
second call as after the first. -/
theorem updateActiveConfig_idempotent (s : ConfigState) :
    (UpdateActiveConfig (UpdateActiveConfig s)).g_ActiveConfig
      = (UpdateActiveConfig s).g_ActiveConfig := rfl

/-- C5: if bUseXFB and bUseRealXFB are both true then RealXFBEnabled returns
true and VirtualXFBEnabled returns false; if bUseXFB is false then both
return false regardless of bUseRealXFB. -/
theorem xfb_query_correctness (c : VideoConfig) :
    (c.bUseXFB = true → c.bUseRealXFB = true →
       c.RealXFBEnabled = true ∧ c.VirtualXFBEnabled = false)
  ∧ (c.bUseXFB = false →
       c.RealXFBEnabled = false ∧ c.VirtualXFBEnabled = false) := by
  unfold VideoConfig.RealXFBEnabled VideoConfig.VirtualXFBEnabled
  constructor
  · intro h1 h2
    rw [h1, h2]
    exact ⟨rfl, rfl⟩
  · intro h
    rw [h]
    exact ⟨rfl, rfl⟩

def cfgXFBBoth : VideoConfig :=
  { (default : VideoConfig) with bUseXFB := true, bUseRealXFB := true }

theorem xfb_query_correctness_witness :
    cfgXFBBoth.RealXFBEnabled = true ∧ cfgXFBBoth.VirtualXFBEnabled = false :=
  (xfb_query_correctness cfgXFBBoth).1 rfl rfl

/-- C6: whenever backend_info.bSupportsExclusiveFullscreen is false,
ExclusiveFullscreenEnabled returns false, for either value of
bBorderlessFullscreen. -/
theorem exclusiveFullscreen_requires_support (c : VideoConfig)
    (h : c.backend_info.bSupportsExclusiveFullscreen = false) :
    c.ExclusiveFullscreenEnabled = false := by
  unfold VideoConfig.ExclusiveFullscreenEnabled
  rw [h]
  exact Bool.false_and _

def cfgNoExcl : VideoConfig :=
  { (default : VideoConfig) with bBorderlessFullscreen := true }

theorem exclusiveFullscreen_requires_support_witness :
    cfgNoExcl.ExclusiveFullscreenEnabled = false :=
  exclusiveFullscreen_requires_support cfgNoExcl rfl

/-- C9: EFBCopiesToTextureEnabled and EFBCopiesToRamEnabled are never both
true, and their disjunction holds exactly when bEFBCopyEnable does: the two
queries partition the EFB-copy-enabled states by bCopyEFBToTexture. -/
theorem efb_copy_partition (c : VideoConfig) :
    (c.EFBCopiesToTextureEnabled && c.EFBCopiesToRamEnabled) = false
  ∧ (c.EFBCopiesToTextureEnabled || c.EFBCopiesToRamEnabled)
      = c.bEFBCopyEnable := by
  unfold VideoConfig.EFBCopiesToTextureEnabled VideoConfig.EFBCopiesToRamEnabled
  rcases hb : c.bEFBCopyEnable <;> rcases ht : c.bCopyEFBToTexture <;>
    simp [hb, ht]

/-- C10: GetName is the constant "OGL"; GetDisplayName returns "OpenGLES"
exactly when the GL interface is non-null with mode MODE_OPENGLES3, and
"OpenGL" in every other case, including a null interface. -/
theorem ogl_backend_names (gl : Option GLInterfaceMode) :
    GetName = "OGL"
  ∧ (GetDisplayName gl = "OpenGLES"
       ↔ gl = some GLInterfaceMode.MODE_OPENGLES3)
  ∧ (¬ gl = some GLInterfaceMode.MODE_OPENGLES3
       → GetDisplayName gl = "OpenGL") := by
  refine ⟨rfl, ?_, ?_⟩
  · rcases gl with _ | m
    · decide
    · cases m <;> decide
  · rcases gl with _ | m
    · decide
    · cases m <;> decide

theorem ogl_backend_names_witness : GetDisplayName none = "OpenGL" :=
  (ogl_backend_names none).2.2 (by decide)

/-- C2 (amended): GetShaders yields one entry per matching file — the base
filename of every ".glsl" file of the user directory, followed by those of
the system directory.  A base name present in both directories therefore
appears once per containing directory; the source does not deduplicate. -/
theorem getShaders_one_entry_per_file (up sp sub : String)
    (ufiles sfiles : List String)
    (hne : ¬ sp ++ sub = up ++ sub)
    (hu : ∀ f ∈ ufiles, '/' ∉ f.data)
    (hs : ∀ f ∈ sfiles, '/' ∉ f.data) :
    GetShaders
      ⟨up, sp, ⟨fun d => if d = up ++ sub then some ufiles
         else if d = sp ++ sub then some sfiles else none⟩⟩ sub
      = matchingBaseNames ufiles ++ matchingBaseNames sfiles := by
  unfold GetShaders DoFileSearch
  simp only [List.flatMap_cons, List.flatMap_nil, List.append_nil]
  rw [if_neg hne]
  simp only [if_true]
  rw [List.map_append, searchDir_names _ _ hu, searchDir_names _ _ hs]

theorem getShaders_one_entry_per_file_witness :
    GetShaders
      ⟨"u", "s", ⟨fun d => if d = "u" ++ "" then some ["foo.glsl"]
         else if d = "s" ++ "" then some ["foo.glsl", "bar.glsl"]
         else none⟩⟩ ""
      = matchingBaseNames ["foo.glsl"]
        ++ matchingBaseNames ["foo.glsl", "bar.glsl"] :=
  getShaders_one_entry_per_file "u" "s" "" ["foo.glsl"]
    ["foo.glsl", "bar.glsl"] (by decide) (by decide) (by decide)

/-- A user shader directory holding foo.glsl next to a system shader
directory holding foo.glsl and bar.glsl, the configuration of the claimed
deduplication example. -/
def exEnvC2 : ShaderEnv :=
  ⟨"User/Shaders", "Sys/Shaders",
   ⟨fun d => if d = "User/Shaders" then some ["foo.glsl"]
      else if d = "Sys/Shaders" then some ["foo.glsl", "bar.glsl"]
      else none⟩⟩

/-- C2 counterexample: with user directory containing foo.glsl and system
directory containing foo.glsl and bar.glsl, GetShaders reports "foo" twice
— the list is not the duplicate-free set the claim states. -/
theorem getShaders_duplicate_basename_counterexample :
    GetShaders exEnvC2 "" = ["foo", "foo", "bar"]
  ∧ (GetShaders exEnvC2 "").count "foo" = 2 := by decide

/-- C7: a missing shader search directory contributes zero entries — shader
discovery still succeeds and yields exactly the base names found in the
directory that exists, whichever of the two is missing. -/
theorem getShaders_missing_dir_total (up sp sub : String)
    (ufiles sfiles : List String)
    (hne : ¬ sp ++ sub = up ++ sub) (hne' : ¬ up ++ sub = sp ++ sub)
    (hu : ∀ f ∈ ufiles, '/' ∉ f.data)
    (hs : ∀ f ∈ sfiles, '/' ∉ f.data) :
    (GetShaders ⟨up, sp, ⟨fun d => if d = sp ++ sub then some sfiles
         else none⟩⟩ sub
       = matchingBaseNames sfiles)
  ∧ (GetShaders ⟨up, sp, ⟨fun d => if d = up ++ sub then some ufiles
         else none⟩⟩ sub
       = matchingBaseNames ufiles) := by
  constructor
  · unfold GetShaders DoFileSearch
    simp only [List.flatMap_cons, List.flatMap_nil, List.append_nil]
    rw [if_neg hne']
    simp only [if_true]
    rw [List.map_append, searchDir_names _ _ hs]
    rfl
  · unfold GetShaders DoFileSearch
    simp only [List.flatMap_cons, List.flatMap_nil, List.append_nil]
    rw [if_neg hne]
    simp only [if_true]
    rw [List.map_append, searchDir_names _ _ hu]
    simp

theorem getShaders_missing_dir_total_witness :
    (GetShaders ⟨"u", "s", ⟨fun d => if d = "s" ++ ""
         then some ["foo.glsl", "bar.glsl"] else none⟩⟩ ""
       = matchingBaseNames ["foo.glsl", "bar.glsl"])
  ∧ (GetShaders ⟨"u", "s", ⟨fun d => if d = "u" ++ ""
         then some ["foo.glsl"] else none⟩⟩ ""
       = matchingBaseNames ["foo.glsl"]) :=
  getShaders_missing_dir_total "u" "s" "" ["foo.glsl"]
    ["foo.glsl", "bar.glsl"] (by decide) (by decide) (by decide) (by decide)

/-- C8: Initialize returns false exactly when the GL creation call it makes
fails — the windowed one when a window handle is present, the offscreen one
otherwise — and InitBackendInfo and InitializeShared have already run before
the result is decided, so g_Config.backend_info carries the populated
capability record (PPShaders from shader discovery, APIType API_OPENGL) even
on a failing call. -/
theorem initialize_reports_creation_failure (env : ShaderEnv)
    (initShared : ConfigState → ConfigState) (gl : GLCreateOutcome)
    (window_handle : Bool) (s : ConfigState)
    (hpres : ∀ t, (initShared t).g_Config.backend_info
       = t.g_Config.backend_info) :
    ((Initialize env initShared gl window_handle s).1 = false ↔
       (window_handle = true ∧ gl.createOk = false)
     ∨ (window_handle = false ∧ gl.createOffscreenOk = false))
  ∧ (Initialize env initShared gl window_handle s).2.g_Config.backend_info
      = (InitBackendInfo env s).g_Config.backend_info
  ∧ (Initialize env initShared gl window_handle
       s).2.g_Config.backend_info.PPShaders = GetShaders env ""
  ∧ (Initialize env initShared gl window_handle
       s).2.g_Config.backend_info.APIType = API_TYPE.API_OPENGL := by
  obtain ⟨cOk, coOk⟩ := gl
  have h2 : (Initialize env initShared ⟨cOk, coOk⟩ window_handle s).2
      = initShared (InitBackendInfo env s) := by
    cases window_handle <;> cases cOk <;> cases coOk <;> rfl
  refine ⟨?_, ?_, ?_, ?_⟩
  · cases window_handle <;> cases cOk <;> cases coOk <;> simp [Initialize]
  · rw [h2, hpres]
  · rw [h2, hpres]
    rfl
  · rw [h2, hpres]
    rfl

/-- A shader environment whose two search directories are both missing, for
exercising Initialize concretely. -/
def envC8 : ShaderEnv := ⟨"u", "s", ⟨fun _ => none⟩⟩

theorem initialize_reports_creation_failure_witness :
    ((Initialize envC8 id ⟨false, true⟩ true default).1 = false ↔
       (true = true ∧ false = false) ∨ (true = false ∧ true = false))
  ∧ (Initialize envC8 id ⟨false, true⟩ true default).2.g_Config.backend_info
      = (InitBackendInfo envC8 default).g_Config.backend_info
  ∧ (Initialize envC8 id ⟨false, true⟩ true
       default).2.g_Config.backend_info.PPShaders = GetShaders envC8 ""
  ∧ (Initialize envC8 id ⟨false, true⟩ true
       default).2.g_Config.backend_info.APIType = API_TYPE.API_OPENGL :=
  initialize_reports_creation_failure envC8 id ⟨false, true⟩ true default
    (fun _ => rfl)
